import Mathlib

/-!
# Verification of the Ring device-directory and update-coordination code

Shallow embedding of `src/api/api.ts` (class `RingApi`): the directory builder
(`fetchRingDevices`, `fetchAndBuildLocations`, `getLocations`, `getHistory`)
and the update coordination pipeline (`listenForCameraUpdates`), together with
proofs about the embedded definitions.
-/

set_option autoImplicit false

/-! ## Data model (record shapes used by `api.ts`) -/

/-- A camera record from the `ring_devices` snapshot (`CameraData`): the code
reads `id` and `location_id`; `description` stands for the remaining status
payload that `updateData` overwrites. -/
structure CameraData where
  id : Nat
  location_id : String
  description : String
deriving DecidableEq, Repr

/-- A base-station record; the code reads only `location_id`. -/
structure BaseStation where
  location_id : String
deriving DecidableEq, Repr

/-- A beams-bridge record; the code reads only `location_id`. -/
structure BeamBridge where
  location_id : String
deriving DecidableEq, Repr

/-- A raw location record (`UserLocation`); the code reads `location_id`. -/
structure UserLocation where
  location_id : String
  name : String
deriving DecidableEq, Repr

/-- An active-ding (event) record; the code reads `doorbot_id`. -/
structure ActiveDing where
  doorbot_id : Nat
deriving DecidableEq, Repr

/-- Modelled from the spec: the per-device object (`RingCamera`, defined in
`ring-camera.ts`, not under `src/`) owns a mutable status record (`data`),
the doorbot flag passed at construction, and an event sink that records
activity events. -/
structure RingCamera where
  data : CameraData
  isDoorbot : Bool
  activeDings : List ActiveDing
deriving DecidableEq, Repr

/-- Modelled from the spec: `RingCamera.updateData` is the status sink that
overwrites the device's status fields from a fetched record. -/
def updateData (c : RingCamera) (d : CameraData) : RingCamera :=
  { c with data := d }

/-- Modelled from the spec: `RingCamera.processActiveDing` is the event sink
that records one activity event. -/
def processActiveDing (c : RingCamera) (a : ActiveDing) : RingCamera :=
  { c with activeDings := c.activeDings ++ [a] }

/-- A constructed `Location`: the raw record, the owned cameras, and the
hub-presence flag (`new Location(location, cameras, hasHubs, restClient)`). -/
structure Location where
  userLocation : UserLocation
  cameras : List RingCamera
  hasHubs : Bool
deriving DecidableEq, Repr

/-- `RingAlarmOptions` from `api.ts`. `locationIds := none` models the option
being absent or not an array (the code tests `Array.isArray`); a polling
interval of `0` models the falsy cases (absent or zero). -/
structure RingAlarmOptions where
  locationIds : Option (List String)
  cameraStatusPollingSeconds : Nat
  cameraDingsPollingSeconds : Nat
deriving DecidableEq, Repr

/-- The fields of the rest client that `fetchRingDevices` consults.
Modelled from the spec: the rest client (`rest-client.ts`, not under `src/`)
sets `using2fa` when authentication had to go through two-factor auth (which
happens exactly when no durable refresh credential was configured) and then
exposes the freshly obtained `refreshToken` for the user to persist — the
diagnostic printed by `api.ts` asks the user to add that token to their
configuration. -/
structure RestClientState where
  using2fa : Bool
  refreshToken : Option String
deriving DecidableEq, Repr

/-- Modelled from the spec: the fetch layer reports "2FA in use without a
durable refresh credential" through the flags tested on line 43 of
`api.ts`: `this.restClient.using2fa && this.restClient.refreshToken`. -/
def using2faWithoutStoredToken (client : RestClientState) : Bool :=
  client.using2fa && client.refreshToken.isSome

/-- The parsed body of the `ring_devices` snapshot request. -/
structure RingDevicesResponse where
  doorbots : List CameraData
  authorized_doorbots : List CameraData
  stickup_cams : List CameraData
  base_stations : List BaseStation
  beams_bridges : List BeamBridge
deriving DecidableEq, Repr

/-- The record returned by `fetchRingDevices` on the non-exit path
(lines 53-60 of `api.ts`): `allCameras` is
`doorbots.concat(stickupCams, authorizedDoorbots)`. -/
structure FetchedDevices where
  doorbots : List CameraData
  authorizedDoorbots : List CameraData
  stickupCams : List CameraData
  allCameras : List CameraData
  baseStations : List BaseStation
  beamBridges : List BeamBridge
deriving DecidableEq, Repr

/-- The value `fetchRingDevices` builds from the snapshot response. -/
def devicesOf (resp : RingDevicesResponse) : FetchedDevices :=
  { doorbots := resp.doorbots
    authorizedDoorbots := resp.authorized_doorbots
    stickupCams := resp.stickup_cams
    allCameras := resp.doorbots ++ resp.stickup_cams ++ resp.authorized_doorbots
    baseStations := resp.base_stations
    beamBridges := resp.beams_bridges }

/-- Outcome of an operation that may terminate the process
(`process.exit(1)` after `console.error` diagnostics) instead of returning. -/
inductive BuildResult (α : Type) where
  | exited (code : Nat) (messages : List String)
  | ok (value : α)
deriving DecidableEq, Repr

/-- The two `console.error` diagnostics printed before `process.exit(1)`
(lines 44-49 of `api.ts`; the second one embeds the fresh refresh token). -/
def twoFaMessages (token : String) : List String :=
  ["Your Ring account is configured to use 2-factor authentication (2fa).",
   "Please change your Ring configuration to include a refreshToken of " ++ token]

/-- `RingApi.fetchRingDevices` (lines 28-61 of `api.ts`): after the snapshot
request resolves to `resp`, exit the process when
`using2fa && refreshToken`, otherwise return the destructured device lists
with `allCameras = doorbots ++ stickup_cams ++ authorized_doorbots`. -/
def fetchRingDevices (client : RestClientState) (resp : RingDevicesResponse) :
    BuildResult FetchedDevices :=
  if using2faWithoutStoredToken client then
    BuildResult.exited 1 (twoFaMessages (client.refreshToken.getD ""))
  else
    BuildResult.ok (devicesOf resp)

/-- Camera construction in `fetchAndBuildLocations` (lines 169-176): one
`RingCamera` per entry of `allCameras`, flagged as doorbot when the record
occurs in `doorbots` or `authorizedDoorbots` (membership models the
JavaScript `includes` check: each fetched record is a distinct object
occurring in the list it was parsed from). -/
def buildCameras (d : FetchedDevices) : List RingCamera :=
  d.allCameras.map (fun data =>
    { data := data
      isDoorbot := d.doorbots.contains data || d.authorizedDoorbots.contains data
      activeDings := [] })

/-- `locationIdsWithHubs` (lines 166-168): the `location_id` of every base
station and beams bridge. -/
def locationIdsWithHubs (d : FetchedDevices) : List String :=
  d.baseStations.map BaseStation.location_id ++ d.beamBridges.map BeamBridge.location_id

/-- Location construction in `fetchAndBuildLocations` (lines 177-192): filter
the raw locations by the optional `locationIds` allow-list, then build one
`Location` per kept record, owning the cameras whose `location_id` matches
and flagged with hub presence. -/
def buildLocations (opts : RingAlarmOptions) (rawLocations : List UserLocation)
    (cameras : List RingCamera) (hubIds : List String) : List Location :=
  (rawLocations.filter (fun l =>
      match opts.locationIds with
      | none => true
      | some ids => ids.contains l.location_id)).map
    (fun l =>
      { userLocation := l
        cameras := cameras.filter (fun x => x.data.location_id == l.location_id)
        hasHubs := hubIds.contains l.location_id })

/-- `RingApi.fetchAndBuildLocations` (lines 157-197): fetch locations and the
device snapshot, then construct cameras and locations; a process exit inside
`fetchRingDevices` happens before any `Location` is produced. -/
def fetchAndBuildLocations (client : RestClientState) (rawLocations : List UserLocation)
    (resp : RingDevicesResponse) (opts : RingAlarmOptions) : BuildResult (List Location) :=
  match fetchRingDevices client resp with
  | BuildResult.exited c m => BuildResult.exited c m
  | BuildResult.ok d =>
      BuildResult.ok (buildLocations opts rawLocations (buildCameras d) (locationIdsWithHubs d))

/-! ## Claim C1: fatal 2FA exit in `fetchRingDevices` -/

/-- C1: the directory build terminates the process exactly when the fetch
layer reports 2FA without a stored refresh credential; it exits with
diagnostics before returning any device or location objects, and in every
other case `fetchRingDevices` returns the device lists normally. -/
theorem c1_two_fa_exit (client : RestClientState) (resp : RingDevicesResponse)
    (rawLocations : List UserLocation) (opts : RingAlarmOptions) :
    (using2faWithoutStoredToken client = true →
      fetchRingDevices client resp
        = BuildResult.exited 1 (twoFaMessages (client.refreshToken.getD ""))
      ∧ twoFaMessages (client.refreshToken.getD "") ≠ []
      ∧ fetchAndBuildLocations client rawLocations resp opts
          = BuildResult.exited 1 (twoFaMessages (client.refreshToken.getD "")))
    ∧ (using2faWithoutStoredToken client = false →
      fetchRingDevices client resp = BuildResult.ok (devicesOf resp)) := by
  constructor
  · intro h
    refine ⟨?_, by simp [twoFaMessages], ?_⟩
    · simp [fetchRingDevices, h]
    · simp [fetchAndBuildLocations, fetchRingDevices, h]
  · intro h
    simp [fetchRingDevices, h]

/-- Witness for C1 at concrete inputs on both sides of the condition. -/
theorem c1_two_fa_exit_witness :
    (fetchRingDevices ⟨true, some "tok"⟩ ⟨[], [], [], [], []⟩
        = BuildResult.exited 1 (twoFaMessages "tok")
      ∧ twoFaMessages "tok" ≠ []
      ∧ fetchAndBuildLocations ⟨true, some "tok"⟩ [] ⟨[], [], [], [], []⟩ ⟨none, 0, 0⟩
        = BuildResult.exited 1 (twoFaMessages "tok"))
    ∧ fetchRingDevices ⟨false, none⟩ ⟨[], [], [], [], []⟩
        = BuildResult.ok (devicesOf ⟨[], [], [], [], []⟩) := by
  refine ⟨?_, ?_⟩
  · have h := (c1_two_fa_exit ⟨true, some "tok"⟩ ⟨[], [], [], [], []⟩ [] ⟨none, 0, 0⟩).1
      (by decide)
    simpa using h
  · exact (c1_two_fa_exit ⟨false, none⟩ ⟨[], [], [], [], []⟩ [] ⟨none, 0, 0⟩).2 (by decide)

/-! ## Claim C2: no deduplication of doorbots / authorized_doorbots -/

/-- A camera record used in concrete runs of the builder. -/
def sharedCam : CameraData :=
  { id := 1, location_id := "L1", description := "front door" }

/-- A snapshot whose single device record occurs in both `doorbots` and
`authorized_doorbots`. -/
def dupResp : RingDevicesResponse :=
  { doorbots := [sharedCam]
    authorized_doorbots := [sharedCam]
    stickup_cams := []
    base_stations := []
    beams_bridges := [] }

/-- C2 counterexample: a device record occurring in both `doorbots` and
`authorized_doorbots` yields TWO `RingCamera`s in the constructed camera set
(`allCameras` is a plain concatenation, no deduplication is performed), so
the claim "exactly one Device" is false. -/
theorem c2_counterexample :
    fetchRingDevices ⟨false, none⟩ dupResp = BuildResult.ok (devicesOf dupResp)
    ∧ (buildCameras (devicesOf dupResp)).length = 2
    ∧ (buildCameras (devicesOf dupResp)).countP (fun c => c.data.id == 1) = 2
    ∧ ¬ (buildCameras (devicesOf dupResp)).countP (fun c => c.data.id == 1) = 1 := by
  decide

/-- C2 amended: the union of device records is the plain concatenation
`doorbots ++ stickup_cams ++ authorized_doorbots` with no deduplication, and
exactly one `RingCamera` is constructed per list entry — so a record
occurring in both `doorbots` and `authorized_doorbots` produces one camera
per occurrence (two in total), not one. -/
theorem c2_no_dedup (resp : RingDevicesResponse) (i : Nat) :
    (devicesOf resp).allCameras
      = resp.doorbots ++ resp.stickup_cams ++ resp.authorized_doorbots
    ∧ (buildCameras (devicesOf resp)).length
      = resp.doorbots.length + resp.stickup_cams.length + resp.authorized_doorbots.length
    ∧ (buildCameras (devicesOf resp)).countP (fun c => c.data.id == i)
      = resp.doorbots.countP (fun d => d.id == i)
        + resp.stickup_cams.countP (fun d => d.id == i)
        + resp.authorized_doorbots.countP (fun d => d.id == i) := by
  refine ⟨rfl, ?_, ?_⟩
  · simp [buildCameras, devicesOf]
    omega
  · simp only [buildCameras, devicesOf, List.map_append, List.countP_append,
      List.countP_map]
    rfl

/-! ## Claim C9: location allow-list filtering -/

/-- C9: with `locationIds = some ids` the builder keeps exactly the raw
locations whose `location_id` is in the list; with `locationIds = none`
(absent / not a list) every raw location is kept; and every constructed
`Location` owns exactly the cameras whose `location_id` equals its own. -/
theorem c9_location_filter (opts : RingAlarmOptions) (rawLocations : List UserLocation)
    (cameras : List RingCamera) (hubIds : List String) :
    ((buildLocations opts rawLocations cameras hubIds).map Location.userLocation
      = match opts.locationIds with
        | none => rawLocations
        | some ids => rawLocations.filter (fun l => ids.contains l.location_id))
    ∧ (∀ loc, loc ∈ buildLocations opts rawLocations cameras hubIds →
        ∀ cam, cam ∈ loc.cameras
          ↔ cam ∈ cameras ∧ cam.data.location_id = loc.userLocation.location_id) := by
  constructor
  · cases h : opts.locationIds with
    | none =>
        simp only [buildLocations, h, List.filter_true, List.map_map]
        have hid : (Location.userLocation ∘ fun l =>
            ({ userLocation := l,
               cameras := cameras.filter (fun x => x.data.location_id == l.location_id),
               hasHubs := hubIds.contains l.location_id } : Location)) = id := rfl
        rw [hid, List.map_id]
    | some ids =>
        simp only [buildLocations, h, List.map_map]
        have hid : (Location.userLocation ∘ fun l =>
            ({ userLocation := l,
               cameras := cameras.filter (fun x => x.data.location_id == l.location_id),
               hasHubs := hubIds.contains l.location_id } : Location)) = id := rfl
        rw [hid, List.map_id]
  · intro loc hloc cam
    simp only [buildLocations, List.mem_map] at hloc
    obtain ⟨l, -, rfl⟩ := hloc
    simp [List.mem_filter]

/-- Witness for C9: the spec's own example — allow-list `[L1]` against raw
locations `L1, L2` keeps exactly `L1`, owning exactly the matching camera. -/
theorem c9_location_filter_witness :
    ((buildLocations ⟨some ["L1"], 0, 0⟩ [⟨"L1", "home"⟩, ⟨"L2", "shop"⟩]
        [⟨sharedCam, true, []⟩, ⟨⟨2, "L2", "rear"⟩, false, []⟩] []).map Location.userLocation
      = [⟨"L1", "home"⟩])
    ∧ (RingCamera.mk sharedCam true []
        ∈ (Location.mk ⟨"L1", "home"⟩ [⟨sharedCam, true, []⟩] false).cameras
      ↔ RingCamera.mk sharedCam true []
          ∈ [RingCamera.mk sharedCam true [], ⟨⟨2, "L2", "rear"⟩, false, []⟩]
        ∧ (RingCamera.mk sharedCam true []).data.location_id = "L1") := by
  have h := c9_location_filter ⟨some ["L1"], 0, 0⟩ [⟨"L1", "home"⟩, ⟨"L2", "shop"⟩]
    [⟨sharedCam, true, []⟩, ⟨⟨2, "L2", "rear"⟩, false, []⟩] []
  constructor
  · simpa using h.1
  · have h2 := h.2 (Location.mk ⟨"L1", "home"⟩ [⟨sharedCam, true, []⟩] false)
      (by decide) (RingCamera.mk sharedCam true [])
    simpa using h2

/-! ## Claim C4: `getLocations` is memoized, not a re-build -/

/-- The collaborator inputs one directory build consumes. -/
structure BuildEnv where
  client : RestClientState
  rawLocations : List UserLocation
  devicesResponse : RingDevicesResponse
  opts : RingAlarmOptions
deriving DecidableEq, Repr

/-- Observable state of a `RingApi` instance, instrumented with how many
directory builds have run and how many times the device set was registered
with the coordinators (`listenForCameraUpdates`, which returns early and
registers nothing when the camera set is empty — line 89). -/
structure ApiState where
  buildCount : Nat
  registrations : Nat
  cachedLocations : BuildResult (List Location)
deriving DecidableEq, Repr

/-- One call of `RingApi.fetchAndBuildLocations` (lines 157-197): re-runs the
full build and re-registers the (non-empty) camera set with the
coordinators; the memoized `locations` field is untouched. -/
def fetchAndBuildLocationsCall (env : BuildEnv) (s : ApiState) :
    BuildResult (List Location) × ApiState :=
  match fetchRingDevices env.client env.devicesResponse with
  | BuildResult.exited c m =>
      (BuildResult.exited c m, { s with buildCount := s.buildCount + 1 })
  | BuildResult.ok d =>
      (BuildResult.ok
          (buildLocations env.opts env.rawLocations (buildCameras d) (locationIdsWithHubs d)),
        { s with
          buildCount := s.buildCount + 1
          registrations := s.registrations + (if (buildCameras d).isEmpty then 0 else 1) })

/-- `RingApi` construction: the field initializer
`private locations = this.fetchAndBuildLocations()` (line 24) runs one build
and caches its promise. -/
def mkRingApi (env : BuildEnv) : ApiState :=
  let p := fetchAndBuildLocationsCall env ⟨0, 0, BuildResult.ok []⟩
  { p.2 with cachedLocations := p.1 }

/-- `RingApi.getLocations` (lines 199-201): returns the cached promise,
touching nothing. -/
def getLocations (s : ApiState) : BuildResult (List Location) × ApiState :=
  (s.cachedLocations, s)

/-- A concrete environment whose build succeeds with one camera. -/
def simpleEnv : BuildEnv :=
  { client := ⟨false, none⟩
    rawLocations := [⟨"L1", "home"⟩]
    devicesResponse :=
      { doorbots := [sharedCam], authorized_doorbots := [], stickup_cams := [],
        base_stations := [], beams_bridges := [] }
    opts := ⟨none, 0, 0⟩ }

/-- C4 counterexample: after construction, calling `getLocations` twice
leaves the state completely unchanged — the build has still run exactly
once and the devices were registered exactly once, so the exposed
"build and return the directory" accessor does NOT re-run the build or
re-register devices on each call. -/
theorem c4_counterexample :
    (getLocations (getLocations (mkRingApi simpleEnv)).2).2 = mkRingApi simpleEnv
    ∧ (getLocations (getLocations (mkRingApi simpleEnv)).2).2.buildCount = 1
    ∧ (getLocations (getLocations (mkRingApi simpleEnv)).2).2.registrations = 1
    ∧ ¬ (getLocations (getLocations (mkRingApi simpleEnv)).2).2.buildCount = 3 := by
  decide

/-- C4 amended: `getLocations` is idempotent because it returns the promise
cached at construction and never re-runs the build or re-registers devices;
it is the (also exposed) `fetchAndBuildLocations` method that re-runs the
full build on every call, re-registering the camera set whenever the build
succeeds with a non-empty camera set. -/
theorem c4_get_locations_memoized (env : BuildEnv) (s : ApiState) (d : FetchedDevices) :
    (getLocations s = (s.cachedLocations, s)
      ∧ (getLocations (getLocations s).2).1 = (getLocations s).1
      ∧ (getLocations s).2.buildCount = s.buildCount)
    ∧ (fetchAndBuildLocationsCall env s).2.buildCount = s.buildCount + 1
    ∧ ((fetchAndBuildLocationsCall env (fetchAndBuildLocationsCall env s).2).2.buildCount
        = s.buildCount + 2)
    ∧ (fetchRingDevices env.client env.devicesResponse = BuildResult.ok d →
        (buildCameras d).isEmpty = false →
        (fetchAndBuildLocationsCall env s).2.registrations = s.registrations + 1
        ∧ (fetchAndBuildLocationsCall env s).1
          = fetchAndBuildLocations env.client env.rawLocations env.devicesResponse env.opts) := by
  refine ⟨⟨rfl, rfl, rfl⟩, ?_, ?_, ?_⟩
  · cases h : fetchRingDevices env.client env.devicesResponse <;>
      simp [fetchAndBuildLocationsCall, h]
  · cases h : fetchRingDevices env.client env.devicesResponse <;>
      simp [fetchAndBuildLocationsCall, h]
  · intro h hne
    constructor
    · simp [fetchAndBuildLocationsCall, h, hne]
    · simp [fetchAndBuildLocationsCall, fetchAndBuildLocations, h]

/-- Witness for C4's amended statement at a concrete environment. -/
theorem c4_get_locations_memoized_witness :
    (getLocations (mkRingApi simpleEnv)
        = ((mkRingApi simpleEnv).cachedLocations, mkRingApi simpleEnv)
      ∧ (getLocations (getLocations (mkRingApi simpleEnv)).2).1
        = (getLocations (mkRingApi simpleEnv)).1
      ∧ (getLocations (mkRingApi simpleEnv)).2.buildCount = (mkRingApi simpleEnv).buildCount)
    ∧ (fetchAndBuildLocationsCall simpleEnv (mkRingApi simpleEnv)).2.buildCount
      = (mkRingApi simpleEnv).buildCount + 1
    ∧ ((fetchAndBuildLocationsCall simpleEnv
          (fetchAndBuildLocationsCall simpleEnv (mkRingApi simpleEnv)).2).2.buildCount
        = (mkRingApi simpleEnv).buildCount + 2)
    ∧ (fetchAndBuildLocationsCall simpleEnv (mkRingApi simpleEnv)).2.registrations
      = (mkRingApi simpleEnv).registrations + 1
    ∧ (fetchAndBuildLocationsCall simpleEnv (mkRingApi simpleEnv)).1
      = fetchAndBuildLocations simpleEnv.client simpleEnv.rawLocations
          simpleEnv.devicesResponse simpleEnv.opts := by
  have h := c4_get_locations_memoized simpleEnv (mkRingApi simpleEnv)
    (devicesOf simpleEnv.devicesResponse)
  have h4 := h.2.2.2 (by decide) (by decide)
  exact ⟨h.1, h.2.1, h.2.2.1, h4.1, h4.2⟩

/-! ## Claim C7: dispatch by id, unknown ids silently dropped -/

/-- The id-keyed registry built by `camerasById` (lines 81-87): a JavaScript
object used as a map from device id to camera. -/
abbrev Registry := List (Nat × RingCamera)

/-- Key assignment on the registry object: `byId[id] = camera` replaces the
binding when `id` is present and adds it otherwise. -/
def insertById (byId : Registry) (i : Nat) (c : RingCamera) : Registry :=
  match byId with
  | [] => [(i, c)]
  | (j, c0) :: rest => if j = i then (i, c) :: rest else (j, c0) :: insertById rest i c

/-- Key lookup on the registry object: `camerasById[id]`, `undefined`
(= `none`) when absent. -/
def lookupById (byId : Registry) (i : Nat) : Option RingCamera :=
  match byId with
  | [] => none
  | (j, c) :: rest => if j = i then some c else lookupById rest i

/-- `camerasById` (lines 81-87): reduce the camera list into an id-keyed
registry (a later camera with the same id overwrites an earlier one). -/
def camerasById (cameras : List RingCamera) : Registry :=
  cameras.foldl (fun byId c => insertById byId c.data.id c) []

/-- Dispatch of one snapshot record (lines 108-113): look the device up by
`data.id`; if present, invoke its status sink, otherwise do nothing. -/
def dispatchStatusRecord (byId : Registry) (d : CameraData) : Registry :=
  match lookupById byId d.id with
  | none => byId
  | some c => insertById byId d.id (updateData c d)

/-- Dispatch of a successful status fetch result (`cameraData.forEach`). -/
def dispatchStatus (byId : Registry) (records : List CameraData) : Registry :=
  records.foldl dispatchStatusRecord byId

/-- Dispatch of one event record (lines 137-142): look the device up by
`doorbot_id`; if present, invoke its event sink, otherwise do nothing. -/
def dispatchDingRecord (byId : Registry) (a : ActiveDing) : Registry :=
  match lookupById byId a.doorbot_id with
  | none => byId
  | some c => insertById byId a.doorbot_id (processActiveDing c a)

/-- Dispatch of a successful event fetch result (`activeDings.forEach`). -/
def dispatchDings (byId : Registry) (dings : List ActiveDing) : Registry :=
  dings.foldl dispatchDingRecord byId

/-- Replacing a key that is already bound changes exactly that binding. -/
theorem lookupById_insert_present (byId : Registry) (i : Nat) (c0 c : RingCamera)
    (h : lookupById byId i = some c0) (j : Nat) :
    lookupById (insertById byId i c) j = if i = j then some c else lookupById byId j := by
  induction byId with
  | nil => simp [lookupById] at h
  | cons p rest ih =>
      obtain ⟨k, ck⟩ := p
      by_cases hk : k = i
      · subst hk
        simp only [insertById, if_pos rfl, lookupById]
        by_cases hj : k = j
        · subst hj
          simp [lookupById]
        · simp [lookupById, hj]
      · simp only [lookupById, if_neg hk] at h
        simp only [insertById, if_neg hk, lookupById]
        by_cases hj : k = j
        · subst hj
          have hij : ¬ i = k := fun hik => hk hik.symm
          simp [ih h, hij]
        · simp [hj, ih h]

/-- C7: a fetch record whose id is absent from the registry mutates no
device — dispatching it is the same as not having received it (for both the
status and the event pipeline), records with known ids are still dispatched
to exactly the matching device, and dispatch never creates a registry
entry for an unknown id. -/
theorem c7_unknown_ids_dropped (byId : Registry) (d : CameraData)
    (records : List CameraData) (a : ActiveDing) (dings : List ActiveDing) :
    (lookupById byId d.id = none →
      dispatchStatus byId (d :: records) = dispatchStatus byId records)
    ∧ (∀ c, lookupById byId d.id = some c →
      dispatchStatus byId (d :: records)
        = dispatchStatus (insertById byId d.id (updateData c d)) records)
    ∧ (lookupById byId a.doorbot_id = none →
      dispatchDings byId (a :: dings) = dispatchDings byId dings)
    ∧ (∀ c, lookupById byId a.doorbot_id = some c →
      dispatchDings byId (a :: dings)
        = dispatchDings (insertById byId a.doorbot_id (processActiveDing c a)) dings)
    ∧ (∀ i, lookupById byId i = none →
      lookupById (dispatchStatus byId records) i = none) := by
  refine ⟨?_, ?_, ?_, ?_, ?_⟩
  · intro h
    simp [dispatchStatus, dispatchStatusRecord, h]
  · intro c h
    simp [dispatchStatus, dispatchStatusRecord, h]
  · intro h
    simp [dispatchDings, dispatchDingRecord, h]
  · intro c h
    simp [dispatchDings, dispatchDingRecord, h]
  · intro i
    induction records generalizing byId with
    | nil => intro h; simpa [dispatchStatus] using h
    | cons r rs ih =>
        intro h
        have hstep : lookupById (dispatchStatusRecord byId r) i = none := by
          cases hr : lookupById byId r.id with
          | none => simpa [dispatchStatusRecord, hr] using h
          | some c =>
              have := lookupById_insert_present byId r.id c (updateData c r) hr i
              simp only [dispatchStatusRecord, hr, this]
              by_cases hri : r.id = i
              · subst hri
                rw [hr] at h
                exact absurd h (by simp)
              · simpa [hri] using h
        simpa [dispatchStatus] using ih (dispatchStatusRecord byId r) hstep

/-- Witness for C7: registry holding device 1; an unknown record (id 2) is
dropped while a known record (id 1) is dispatched. -/
theorem c7_unknown_ids_dropped_witness :
    (dispatchStatus (camerasById [⟨sharedCam, true, []⟩])
        [⟨2, "L2", "x"⟩, ⟨1, "L1", "new"⟩]
      = dispatchStatus (camerasById [⟨sharedCam, true, []⟩]) [⟨1, "L1", "new"⟩])
    ∧ (dispatchDings (camerasById [⟨sharedCam, true, []⟩]) [⟨7⟩]
      = dispatchDings (camerasById [⟨sharedCam, true, []⟩]) [])
    ∧ lookupById
        (dispatchStatus (camerasById [⟨sharedCam, true, []⟩])
          [⟨2, "L2", "x"⟩, ⟨1, "L1", "new"⟩]) 2 = none := by
  have h := c7_unknown_ids_dropped (camerasById [⟨sharedCam, true, []⟩])
    ⟨2, "L2", "x"⟩ [⟨1, "L1", "new"⟩] ⟨7⟩ []
  exact ⟨h.1 (by decide), h.2.2.1 (by decide),
    h.2.2.2.2 2 (by decide)⟩

/-! ## Claim C10: `getHistory` URL construction -/

/-- Modelled from the spec: `clientApi` (defined in `rest-client.ts`, not
under `src/`) prefixes its argument with the fixed client-API base URL; the
base is kept abstract here, constrained only where a proof needs it. -/
def clientApi (base : String) (path : String) : String := base ++ path

/-- The query fragment appended for `favoritesOnly` (line 212 of `api.ts`). -/
def favFragment : String := "&favorites=1"

/-- The URL built by `RingApi.getHistory` (lines 211-216):
`clientApi("doorbots/history?limit=" ++ limit ++ favoritesParam)`. -/
def getHistoryUrl (base : String) (limit : Nat) (favoritesOnly : Bool) : String :=
  clientApi base ("doorbots/history?limit=" ++ toString limit
    ++ (if favoritesOnly then favFragment else ""))

/-- `getHistory()` with both parameters omitted: the declared defaults are
`limit = 10` and `favoritesOnly = false`. -/
def getHistoryUrlDefaults (base : String) : String := getHistoryUrl base 10 false

/-- `sub` occurs contiguously inside `s`. -/
def containsFragment (s : String) (sub : String) : Prop :=
  ∃ l r, s.data = l ++ sub.data ++ r

/-- No decimal digit character is an ampersand. -/
theorem digitChar_ne_amp : ∀ m : Nat, m < 10 → Nat.digitChar m ≠ '&' := by decide

/-- The characters produced by `Nat.toDigitsCore` in base 10 add no
ampersand. -/
theorem toDigitsCore_no_amp :
    ∀ (fuel n : Nat) (ds : List Char), '&' ∉ ds → '&' ∉ Nat.toDigitsCore 10 fuel n ds := by
  intro fuel
  induction fuel with
  | zero => intro n ds h; simpa [Nat.toDigitsCore] using h
  | succ fuel ih =>
      intro n ds h
      have hd : Nat.digitChar (n % 10) ≠ '&' :=
        digitChar_ne_amp (n % 10) (Nat.mod_lt n (by norm_num))
      have hds : '&' ∉ Nat.digitChar (n % 10) :: ds := by
        intro hmem
        rcases List.mem_cons.mp hmem with hc | hc
        · exact hd hc.symm
        · exact h hc
      simp only [Nat.toDigitsCore]
      by_cases hz : n / 10 = 0
      · simpa [hz] using hds
      · simpa [hz] using ih (n / 10) (Nat.digitChar (n % 10) :: ds) hds

/-- The decimal representation of a natural number contains no ampersand. -/
theorem repr_no_amp (n : Nat) : '&' ∉ (toString n).data := by
  show '&' ∉ (Nat.repr n).data
  have : (Nat.repr n).data = Nat.toDigits 10 n := rfl
  rw [this]
  exact toDigitsCore_no_amp (n + 1) n [] (by simp)

/-- The two fixed pieces of the history path, split around `limit=`. -/
def historyPathHead : String := "doorbots/history?"

/-- The `limit=` key of the history query string. -/
def limitKey : String := "limit="

/-- The characters of the `getHistory` URL, decomposed. -/
theorem getHistoryUrl_data (base : String) (limit : Nat) (fav : Bool) :
    (getHistoryUrl base limit fav).data
      = base.data ++ historyPathHead.data ++ limitKey.data ++ (toString limit).data
        ++ (if fav then favFragment.data else []) := by
  have hsplit : ("doorbots/history?limit=" : String).data
      = historyPathHead.data ++ limitKey.data := rfl
  have happ : ∀ a b : String, (a ++ b).data = a.data ++ b.data := fun a b => rfl
  cases fav <;>
    simp [getHistoryUrl, clientApi, happ, hsplit, historyPathHead, limitKey,
      favFragment, List.append_assoc]

/-- C10: the `getHistory` request URL always embeds the given limit as
`limit=<limit>`, contains the `&favorites=1` query fragment exactly when
`favoritesOnly` is true (for any base URL containing no ampersand), and
calling with the parameters omitted is calling with `limit = 10` and
`favoritesOnly = false`. -/
theorem c10_history_url (base : String) (hb : '&' ∉ base.data)
    (limit : Nat) (fav : Bool) :
    getHistoryUrlDefaults base = getHistoryUrl base 10 false
    ∧ containsFragment (getHistoryUrl base limit fav) (limitKey ++ toString limit)
    ∧ (containsFragment (getHistoryUrl base limit fav) favFragment ↔ fav = true) := by
  refine ⟨rfl, ?_, ?_⟩
  · refine ⟨base.data ++ historyPathHead.data, if fav then favFragment.data else [], ?_⟩
    have happ : ∀ a b : String, (a ++ b).data = a.data ++ b.data := fun a b => rfl
    rw [getHistoryUrl_data, happ]
    simp [List.append_assoc]
  · constructor
    · rintro ⟨l, r, h⟩
      by_contra hfav
      have hf : fav = false := by
        cases fav
        · rfl
        · exact absurd rfl hfav
      subst hf
      rw [getHistoryUrl_data] at h
      simp only [Bool.false_eq_true, if_false, List.append_nil] at h
      have hamp : '&' ∈ l ++ favFragment.data ++ r := by
        have : '&' ∈ favFragment.data := by decide
        simp [this]
      rw [← h] at hamp
      simp only [List.mem_append] at hamp
      rcases hamp with ((h1 | h2) | h3) | h4
      · exact hb h1
      · exact absurd h2 (by decide)
      · exact absurd h3 (by decide)
      · exact repr_no_amp limit h4
    · intro hf
      subst hf
      refine ⟨base.data ++ historyPathHead.data ++ limitKey.data ++ (toString limit).data,
        [], ?_⟩
      rw [getHistoryUrl_data]
      simp [List.append_assoc]

/-- Witness for C10 at a concrete base URL, limit and flag. -/
theorem c10_history_url_witness :
    getHistoryUrlDefaults "https://base/" = getHistoryUrl "https://base/" 10 false
    ∧ containsFragment (getHistoryUrl "https://base/" 25 true) (limitKey ++ toString 25)
    ∧ (containsFragment (getHistoryUrl "https://base/" 25 true) favFragment ↔ true = true) := by
  exact c10_history_url "https://base/" (by decide) 25 true

/-! ## The status update coordinator (`listenForCameraUpdates`, lines 69-147)

A discrete-event model with virtual time in milliseconds. The pipeline of
`api.ts` is

* `camerasRequestUpdate$` — the merged per-camera manual triggers, throttled
  by `throttleTime(500)` (leading edge only: an admitted trigger opens a
  500ms window during which later triggers are dropped);
* `onPollForStatusUpdate` — `onUpdateReceived` piped through
  `debounceTime(cameraStatusPollingSeconds * 1000)` when that interval is
  non-zero, else the empty stream;
* the merge of both, throttled again by `throttleTime(500)`, feeding
  `switchMap(fetch)`: every admitted trigger starts a fetch and makes it the
  current inner source, discarding the previous in-flight fetch's result;
* the subscriber, which on completion of the current fetch first fires
  `onUpdateReceived.next()` (restarting the debounce timer) and then
  dispatches the records (or nothing, on a caught failure);
* the startup kick `onUpdateReceived.next()` when the status interval is
  non-zero.

Each `step` processes the earliest pending event (fetch completion, then
debounce expiry, then next manual trigger on ties). The manual trigger list
is assumed sorted in time. -/

/-- Observable events of one coordinator run. -/
inductive Ev where
  | fetchStart (t : Nat) (idx : Nat)
  | fetchDone (t : Nat) (idx : Nat) (succeeded : Bool)
deriving DecidableEq, Repr

/-- Configuration of one run: the status interval (seconds, `0` = disabled),
the times of the merged manual triggers, and the collaborator's behavior for
the `k`-th issued fetch (duration in ms, success flag). -/
structure StatusConfig where
  intervalSec : Nat
  manual : List Nat
  fetchDur : Nat → Nat
  fetchOk : Nat → Bool

/-- Machine state: remaining manual triggers, the two throttle windows
(time of the last admitted trigger), the pending debounce deadline, the
current in-flight fetch (completion time, index), the number of fetches
issued so far, and the event trace. -/
structure MState where
  manual : List Nat
  thr1 : Option Nat
  thr2 : Option Nat
  deb : Option Nat
  cur : Option (Nat × Nat)
  started : Nat
  trace : List Ev
deriving DecidableEq, Repr

/-- State after subscription: the startup kick (line 117) has fired
`onUpdateReceived.next()` at time 0 when the interval is non-zero, so the
debounce deadline is one full interval. -/
def initState (cfg : StatusConfig) : MState :=
  { manual := cfg.manual
    thr1 := none
    thr2 := none
    deb := if cfg.intervalSec = 0 then none else some (cfg.intervalSec * 1000)
    cur := none
    started := 0
    trace := [] }

/-- `switchMap` on an admitted trigger at time `t`: issue fetch number
`s.started` and make it the current inner source (superseding any
in-flight fetch, whose result will never reach the subscriber). -/
def startFetch (cfg : StatusConfig) (s : MState) (t : Nat) : MState :=
  { s with
    thr2 := some t
    cur := some (t + cfg.fetchDur s.started, s.started)
    started := s.started + 1
    trace := s.trace ++ [Ev.fetchStart t s.started] }

/-- The second `throttleTime(500)` (line 95): admit the trigger when no
trigger was admitted in the last 500ms, else drop it. -/
def admitThr2 (cfg : StatusConfig) (s : MState) (t : Nat) : MState :=
  match s.thr2 with
  | none => startFetch cfg s t
  | some l => if t < l + 500 then s else startFetch cfg s t

/-- `pre a b`: the event at time `a` exists and precedes (or ties) any event
at time `b`. -/
def pre : Option Nat → Option Nat → Bool
  | none, _ => false
  | some _, none => true
  | some a, some b => a ≤ b

/-- Completion of the current fetch: the subscriber fires
`onUpdateReceived.next()` (re-arming the debounce path when the interval is
non-zero) and dispatches the result. -/
def completeStep (cfg : StatusConfig) (s : MState) : MState :=
  match s.cur with
  | some (e, i) =>
      { s with
        cur := none
        deb := if cfg.intervalSec = 0 then none else some (e + cfg.intervalSec * 1000)
        trace := s.trace ++ [Ev.fetchDone e i (cfg.fetchOk i)] }
  | none => s

/-- Expiry of the debounce timer: emit the periodic trigger into the second
throttle. -/
def debStep (cfg : StatusConfig) (s : MState) : MState :=
  match s.deb with
  | some d => admitThr2 cfg { s with deb := none } d
  | none => s

/-- Arrival of the next manual trigger: the first `throttleTime(500)`
(line 76) admits it into the merged stream or drops it. -/
def manualStep (cfg : StatusConfig) (s : MState) : MState :=
  match s.manual with
  | t :: rest =>
      match s.thr1 with
      | none => admitThr2 cfg { s with manual := rest, thr1 := some t } t
      | some l =>
          if t < l + 500 then { s with manual := rest }
          else admitThr2 cfg { s with manual := rest, thr1 := some t } t
  | [] => s

/-- Process the earliest pending event (completion, then debounce, then
manual trigger on ties); do nothing when no event is pending. -/
def step (cfg : StatusConfig) (s : MState) : MState :=
  if pre (s.cur.map Prod.fst) s.deb && pre (s.cur.map Prod.fst) s.manual.head? then
    completeStep cfg s
  else if pre s.deb s.manual.head? then
    debStep cfg s
  else
    manualStep cfg s

/-- Run the machine for `n` events. -/
def run (cfg : StatusConfig) : Nat → MState
  | 0 => initState cfg
  | n + 1 => step cfg (run cfg n)

/-- The subscriber body for a status cycle (lines 101-114): a caught fetch
failure delivers `none` and dispatches nothing; a success dispatches every
record through the registry. -/
def statusCycleDispatch (byId : Registry) (response : Option (List CameraData)) : Registry :=
  match response with
  | none => byId
  | some records => dispatchStatus byId records

/-- The subscriber body for an event-poll cycle (lines 130-143): a caught
failure (`none`) or an empty list dispatches nothing. -/
def dingsCycleDispatch (byId : Registry) (response : Option (List ActiveDing)) : Registry :=
  match response with
  | none => byId
  | some dings => if dings.isEmpty then byId else dispatchDings byId dings

/-! ## Claim C3: timing of the periodic status cycles -/

/-- A periodic-only run: 1-second status interval, no manual triggers,
every fetch takes 100ms and succeeds. -/
def periodicCfg : StatusConfig :=
  { intervalSec := 1, manual := [], fetchDur := fun _ => 100, fetchOk := fun _ => true }

/-- C3 counterexample: with a 1-second status interval the startup kick is
routed through `debounceTime(1000)`, so the FIRST periodic cycle begins at
t = 1000ms — one full interval after startup — not immediately: after the
first processed event the whole trace is a fetch start at 1000, and nothing
at all has happened before it. -/
theorem c3_counterexample :
    (run periodicCfg 0).trace = []
    ∧ (run periodicCfg 1).trace = [Ev.fetchStart 1000 0]
    ∧ (run periodicCfg 1).trace.head? = some (Ev.fetchStart (periodicCfg.intervalSec * 1000) 0)
    ∧ (run periodicCfg 3).trace
      = [Ev.fetchStart 1000 0, Ev.fetchDone 1100 0 true, Ev.fetchStart 2100 1] := by
  decide

/-- Start time of the `k`-th periodic cycle when only the timer triggers:
the first begins one full interval after startup, each later one begins one
full interval after the previous cycle's completion. -/
def pStart (cfg : StatusConfig) : Nat → Nat
  | 0 => cfg.intervalSec * 1000
  | k + 1 => pStart cfg k + cfg.fetchDur k + cfg.intervalSec * 1000

/-- Completion time of the `k`-th periodic cycle. -/
def pEnd (cfg : StatusConfig) (k : Nat) : Nat := pStart cfg k + cfg.fetchDur k

/-- Trace after `k` completed periodic cycles. -/
def pTrace (cfg : StatusConfig) : Nat → List Ev
  | 0 => []
  | k + 1 => pTrace cfg k
      ++ [Ev.fetchStart (pStart cfg k) k, Ev.fetchDone (pEnd cfg k) k (cfg.fetchOk k)]

/-- Machine state while the `k`-th periodic fetch is in flight. -/
def stateB (cfg : StatusConfig) (k : Nat) : MState :=
  { manual := []
    thr1 := none
    thr2 := some (pStart cfg k)
    deb := none
    cur := some (pEnd cfg k, k)
    started := k + 1
    trace := pTrace cfg k ++ [Ev.fetchStart (pStart cfg k) k] }

/-- Machine state after the `k`-th periodic fetch completed and the debounce
timer was re-armed for one interval after that completion. -/
def stateA (cfg : StatusConfig) (k : Nat) : MState :=
  { manual := []
    thr1 := none
    thr2 := some (pStart cfg k)
    deb := some (pStart cfg (k + 1))
    cur := none
    started := k + 1
    trace := pTrace cfg (k + 1) }

/-- First transition of a periodic-only run: the startup kick's debounce
expires one interval in and starts fetch 0. -/
theorem step_init (cfg : StatusConfig) (hm : cfg.manual = [])
    (hp : cfg.intervalSec ≠ 0) : step cfg (initState cfg) = stateB cfg 0 := by
  simp [step, initState, hm, hp, pre, debStep, admitThr2, startFetch, stateB,
    pStart, pEnd, pTrace]

/-- While a periodic fetch is in flight the only pending event is its
completion, which re-arms the debounce timer for one interval later. -/
theorem step_stateB (cfg : StatusConfig) (hp : cfg.intervalSec ≠ 0) (k : Nat) :
    step cfg (stateB cfg k) = stateA cfg k := by
  simp [step, stateB, stateA, pre, completeStep, hp, pStart, pEnd, pTrace]

/-- After a periodic completion the only pending event is the debounce
expiry, which the second throttle admits (the window closed at least one
full interval earlier), starting the next fetch. -/
theorem step_stateA (cfg : StatusConfig) (hp : cfg.intervalSec ≠ 0) (k : Nat) :
    step cfg (stateA cfg k) = stateB cfg (k + 1) := by
  simp [step, stateA, stateB, pre, debStep, admitThr2, startFetch,
    pStart, pEnd, pTrace]
  omega

/-- Characterization of a periodic-only run (no manual triggers, non-zero
status interval): after `2k+1` events the `k`-th fetch is in flight, after
`2k+2` events it has completed and the timer is re-armed. -/
theorem periodic_run (cfg : StatusConfig) (hm : cfg.manual = [])
    (hp : cfg.intervalSec ≠ 0) (k : Nat) :
    run cfg (2 * k + 1) = stateB cfg k ∧ run cfg (2 * k + 2) = stateA cfg k := by
  induction k with
  | zero =>
      have h1 : run cfg 1 = stateB cfg 0 := by
        show step cfg (run cfg 0) = stateB cfg 0
        show step cfg (initState cfg) = stateB cfg 0
        exact step_init cfg hm hp
      refine ⟨h1, ?_⟩
      show step cfg (run cfg 1) = stateA cfg 0
      rw [h1]
      exact step_stateB cfg hp 0
  | succ k ih =>
      have hidx1 : 2 * (k + 1) + 1 = (2 * k + 2) + 1 := by ring
      have h1 : run cfg (2 * (k + 1) + 1) = stateB cfg (k + 1) := by
        rw [hidx1]
        show step cfg (run cfg (2 * k + 2)) = stateB cfg (k + 1)
        rw [ih.2]
        exact step_stateA cfg hp k
      refine ⟨h1, ?_⟩
      have hidx2 : 2 * (k + 1) + 2 = (2 * (k + 1) + 1) + 1 := by ring
      rw [hidx2]
      show step cfg (run cfg (2 * (k + 1) + 1)) = stateA cfg (k + 1)
      rw [h1]
      exact step_stateB cfg hp (k + 1)

/-- In a periodic-only run, cycle `k` completes at `pEnd cfg k` (its outcome
is `fetchOk k`) and cycle `k + 1` starts exactly one status interval after
that completion. -/
theorem periodic_rearm (cfg : StatusConfig) (hm : cfg.manual = [])
    (hp : cfg.intervalSec ≠ 0) (k : Nat) :
    (run cfg (2 * k + 2)).trace.getLast?
      = some (Ev.fetchDone (pEnd cfg k) k (cfg.fetchOk k))
    ∧ (run cfg (2 * k + 3)).trace
      = (run cfg (2 * k + 2)).trace
        ++ [Ev.fetchStart (pEnd cfg k + cfg.intervalSec * 1000) (k + 1)] := by
  have hk := periodic_run cfg hm hp k
  have hk1 := periodic_run cfg hm hp (k + 1)
  refine ⟨?_, ?_⟩
  · rw [hk.2]
    show (pTrace cfg (k + 1)).getLast? = _
    have hsplit : pTrace cfg (k + 1)
        = (pTrace cfg k ++ [Ev.fetchStart (pStart cfg k) k])
          ++ [Ev.fetchDone (pEnd cfg k) k (cfg.fetchOk k)] := by
      simp [pTrace]
    rw [hsplit, List.getLast?_concat]
  · have hidx : 2 * k + 3 = 2 * (k + 1) + 1 := by ring
    rw [hidx, hk1.1, hk.2]
    show pTrace cfg (k + 1) ++ _ = pTrace cfg (k + 1) ++ _
    have hst : pStart cfg (k + 1) = pEnd cfg k + cfg.intervalSec * 1000 := by
      simp [pStart, pEnd]
    rw [hst]

/-- C3 amended: in a periodic-only run the timer is seeded immediately at
startup, but the seed passes through the debounce stage, so the FIRST
periodic cycle begins exactly one full status interval after startup (not
immediately); every subsequent cycle begins exactly one status interval
after the previous cycle's completion (hence no sooner than the interval
after completion, not after start). -/
theorem c3_periodic_timing (cfg : StatusConfig) (hm : cfg.manual = [])
    (hp : cfg.intervalSec ≠ 0) (k : Nat) :
    (run cfg 1).trace = [Ev.fetchStart (cfg.intervalSec * 1000) 0]
    ∧ (run cfg (2 * k + 2)).trace.getLast?
      = some (Ev.fetchDone (pEnd cfg k) k (cfg.fetchOk k))
    ∧ (run cfg (2 * k + 3)).trace
      = (run cfg (2 * k + 2)).trace
        ++ [Ev.fetchStart (pEnd cfg k + cfg.intervalSec * 1000) (k + 1)] := by
  have h0 := periodic_run cfg hm hp 0
  have hre := periodic_rearm cfg hm hp k
  refine ⟨?_, hre.1, hre.2⟩
  rw [h0.1]
  simp [stateB, pTrace, pStart]

/-- Witness for C3's amended statement: concrete periodic run, cycle 1 to
cycle 2. -/
theorem c3_periodic_timing_witness :
    (run periodicCfg 1).trace = [Ev.fetchStart (periodicCfg.intervalSec * 1000) 0]
    ∧ (run periodicCfg (2 * 1 + 2)).trace.getLast?
      = some (Ev.fetchDone (pEnd periodicCfg 1) 1 (periodicCfg.fetchOk 1))
    ∧ (run periodicCfg (2 * 1 + 3)).trace
      = (run periodicCfg (2 * 1 + 2)).trace
        ++ [Ev.fetchStart (pEnd periodicCfg 1 + periodicCfg.intervalSec * 1000) (1 + 1)] :=
  c3_periodic_timing periodicCfg rfl (by decide) 1

/-! ## Claim C8: fetch failures are absorbed and the loop re-arms -/

/-- A periodic-only run whose every fetch fails. -/
def failingCfg : StatusConfig :=
  { intervalSec := 1, manual := [], fetchDur := fun _ => 200, fetchOk := fun _ => false }

/-- C8: a caught fetch failure (delivered as `null`) dispatches no records
in either coordinator and surfaces no error, and the failed cycle `k` still
re-arms the timer: cycle `k + 1` begins exactly one status interval after
cycle `k`'s completion. -/
theorem c8_failure_absorbed (cfg : StatusConfig) (byId : Registry) (k : Nat)
    (hm : cfg.manual = []) (hp : cfg.intervalSec ≠ 0) (hf : cfg.fetchOk k = false) :
    statusCycleDispatch byId none = byId
    ∧ dingsCycleDispatch byId none = byId
    ∧ (run cfg (2 * k + 2)).trace.getLast? = some (Ev.fetchDone (pEnd cfg k) k false)
    ∧ (run cfg (2 * k + 3)).trace
      = (run cfg (2 * k + 2)).trace
        ++ [Ev.fetchStart (pEnd cfg k + cfg.intervalSec * 1000) (k + 1)] := by
  have h := periodic_rearm cfg hm hp k
  exact ⟨rfl, rfl, by rw [h.1, hf], h.2⟩

/-- Witness for C8 at the concrete failing run, cycle 0. -/
theorem c8_failure_absorbed_witness :
    statusCycleDispatch (camerasById [⟨sharedCam, true, []⟩]) none
      = camerasById [⟨sharedCam, true, []⟩]
    ∧ dingsCycleDispatch (camerasById [⟨sharedCam, true, []⟩]) none
      = camerasById [⟨sharedCam, true, []⟩]
    ∧ (run failingCfg (2 * 0 + 2)).trace.getLast?
      = some (Ev.fetchDone (pEnd failingCfg 0) 0 false)
    ∧ (run failingCfg (2 * 0 + 3)).trace
      = (run failingCfg (2 * 0 + 2)).trace
        ++ [Ev.fetchStart (pEnd failingCfg 0 + failingCfg.intervalSec * 1000) (0 + 1)] :=
  c8_failure_absorbed failingCfg (camerasById [⟨sharedCam, true, []⟩]) 0 rfl
    (by decide) rfl

/-! ## Claim C5: cycle admission is time-based, not completion-based -/

/-- Two manual triggers 600ms apart while every fetch takes 1000ms. -/
def overlapCfg : StatusConfig :=
  { intervalSec := 0, manual := [0, 600], fetchDur := fun _ => 1000,
    fetchOk := fun _ => true }

/-- C5 counterexample: fetch 0 starts at t = 0 and is outstanding until
t = 1000, yet the manual trigger at t = 600 (more than 500ms after the last
admitted trigger) is admitted and starts fetch 1 at t = 600 — a new cycle
begins while the previous fetch is outstanding, refuting "a new trigger is
only admitted after the current cycle's downstream re-arm signal fires".
The superseded fetch 0 never reaches the subscriber: the only completion in
the trace is fetch 1's. -/
theorem c5_counterexample :
    (run overlapCfg 1).cur = some (1000, 0)
    ∧ (run overlapCfg 2).trace = [Ev.fetchStart 0 0, Ev.fetchStart 600 1]
    ∧ 600 < 1000
    ∧ (run overlapCfg 3).trace
      = [Ev.fetchStart 0 0, Ev.fetchStart 600 1, Ev.fetchDone 1600 1 true] := by
  decide

/-- The fetch start times recorded in a trace, in order. -/
def startTimes (tr : List Ev) : List Nat :=
  tr.filterMap (fun e =>
    match e with
    | Ev.fetchStart t _ => some t
    | Ev.fetchDone _ _ _ => none)

/-- The invariant tying the second throttle window to the trace: the window
anchor is the last admitted start time, and admitted starts are at least
500ms apart. -/
def ThrottleInv (s : MState) : Prop :=
  s.thr2 = (startTimes s.trace).getLast?
  ∧ List.Chain' (fun a b => a + 500 ≤ b) (startTimes s.trace)

/-- Appending a completion event changes no start time. -/
theorem startTimes_append_done (tr : List Ev) (t i : Nat) (b : Bool) :
    startTimes (tr ++ [Ev.fetchDone t i b]) = startTimes tr := by
  simp [startTimes]

/-- Appending a start event appends its time. -/
theorem startTimes_append_start (tr : List Ev) (t i : Nat) :
    startTimes (tr ++ [Ev.fetchStart t i]) = startTimes tr ++ [t] := by
  simp [startTimes]

/-- The second throttle preserves the invariant: it admits a trigger only
500ms or more after the last admitted one. -/
theorem throttleInv_admitThr2 (cfg : StatusConfig) (s : MState) (t : Nat)
    (h : ThrottleInv s) : ThrottleInv (admitThr2 cfg s t) := by
  unfold admitThr2
  cases hthr : s.thr2 with
  | none =>
      have hnil : startTimes s.trace = [] := by
        have h1 := h.1
        rw [hthr] at h1
        cases hcase : startTimes s.trace with
        | nil => rfl
        | cons a l =>
            rw [hcase] at h1
            exact absurd (List.getLast?_eq_none_iff.mp h1.symm) (by simp)
      constructor
      · simp [startFetch, startTimes_append_start, hnil]
      · simp [startFetch, startTimes_append_start, hnil]
  | some l =>
      by_cases hlt : t < l + 500
      · simpa [hlt] using h
      · have hle : l + 500 ≤ t := Nat.le_of_not_lt hlt
        have h1 := h.1
        rw [hthr] at h1
        simp only [hlt, if_false]
        constructor
        · simp [startFetch, startTimes_append_start]
        · rw [startFetch, startTimes_append_start]
          refine List.Chain'.append h.2 (List.chain'_singleton t) ?_
          intro x hx y hy
          simp at hy
          subst hy
          rw [← h1] at hx
          simp at hx
          subst hx
          exact hle

/-- Every step of the machine preserves the throttle invariant. -/
theorem throttleInv_step (cfg : StatusConfig) (s : MState) (h : ThrottleInv s) :
    ThrottleInv (step cfg s) := by
  unfold step
  by_cases h1 : (pre (s.cur.map Prod.fst) s.deb && pre (s.cur.map Prod.fst) s.manual.head?) = true
  · rw [if_pos h1]
    unfold completeStep
    cases hc : s.cur with
    | none => exact h
    | some p =>
        obtain ⟨e, i⟩ := p
        constructor
        · simpa [startTimes_append_done] using h.1
        · simpa [startTimes_append_done] using h.2
  · rw [if_neg h1]
    by_cases h2 : (pre s.deb s.manual.head?) = true
    · rw [if_pos h2]
      unfold debStep
      cases hd : s.deb with
      | none => exact h
      | some d => exact throttleInv_admitThr2 cfg _ d h
    · rw [if_neg h2]
      unfold manualStep
      cases hm : s.manual with
      | nil => exact h
      | cons t rest =>
          cases hth : s.thr1 with
          | none => exact throttleInv_admitThr2 cfg _ t h
          | some l =>
              by_cases hlt : t < l + 500
              · simpa [hlt] using h
              · simp only [hlt, if_false]
                exact throttleInv_admitThr2 cfg _ t h

/-- C5 amended: admission is governed by the 500ms throttle window, not by
cycle completion — in EVERY run (any interval, any manual triggers, any
fetch durations) consecutive fetch starts are at least 500ms apart, i.e. a
trigger arriving within 500ms of the last admitted one is dropped (not
queued); but as the counterexample run shows, a trigger after the window
reopens is admitted even while a previous fetch is outstanding, and the
superseded fetch's result is discarded by `switchMap`. -/
theorem c5_starts_spaced (cfg : StatusConfig) (n : Nat) :
    List.Chain' (fun a b => a + 500 ≤ b) (startTimes (run cfg n).trace) := by
  have hinv : ThrottleInv (run cfg n) := by
    induction n with
    | zero =>
        constructor
        · simp [run, initState, startTimes]
        · simp [run, initState, startTimes]
    | succ n ih => exact throttleInv_step cfg (run cfg n) ih
  exact hinv.2

/-! ## Claim C6: a 500ms burst of manual triggers issues exactly one fetch -/

/-- State invariant after the first trigger of a burst anchored at `t0` was
admitted (with the timer path disabled): one fetch has been issued, the
first throttle's window is anchored at `t0`, and every remaining manual
trigger falls inside that window. -/
def BurstInv (t0 : Nat) (s : MState) : Prop :=
  s.started = 1 ∧ s.thr1 = some t0 ∧ s.deb = none ∧ ∀ t ∈ s.manual, t < t0 + 500

/-- With the timer path disabled, every later event of a burst run preserves
the invariant: completions issue nothing new, and each remaining manual
trigger is dropped by the first throttle. -/
theorem burstInv_step (cfg : StatusConfig) (hc : cfg.intervalSec = 0) (t0 : Nat)
    (s : MState) (h : BurstInv t0 s) : BurstInv t0 (step cfg s) := by
  unfold step
  by_cases h1 : (pre (s.cur.map Prod.fst) s.deb
      && pre (s.cur.map Prod.fst) s.manual.head?) = true
  · rw [if_pos h1]
    unfold completeStep
    cases hcur : s.cur with
    | none => exact h
    | some p =>
        obtain ⟨e, i⟩ := p
        exact ⟨h.1, h.2.1, by simp [hc], h.2.2.2⟩
  · rw [if_neg h1]
    by_cases h2 : (pre s.deb s.manual.head?) = true
    · rw [if_pos h2]
      unfold debStep
      rw [h.2.2.1]
      exact h
    · rw [if_neg h2]
      unfold manualStep
      cases hm : s.manual with
      | nil => exact h
      | cons t rest =>
          have ht : t < t0 + 500 := h.2.2.2 t (by rw [hm]; exact List.mem_cons_self t rest)
          dsimp only
          rw [h.2.1]
          dsimp only
          rw [if_pos ht]
          refine ⟨h.1, rfl, h.2.2.1, ?_⟩
          intro u hu
          exact h.2.2.2 u (by rw [hm]; exact List.mem_cons_of_mem t hu)

/-- C6: with the timer path disabled and a burst of `1 + rest.length` manual
triggers all inside the 500ms window anchored at the first trigger `t0`, the
coordinator issues exactly one fetch over the whole run: the first trigger
starts a cycle immediately at `t0` and every other trigger is dropped, not
queued. -/
theorem c6_burst_single_fetch (cfg : StatusConfig) (t0 : Nat) (rest : List Nat)
    (n : Nat) (hc : cfg.intervalSec = 0) (hm : cfg.manual = t0 :: rest)
    (hrest : ∀ t ∈ rest, t0 ≤ t ∧ t < t0 + 500)
    (_hsorted : List.Chain' (fun a b => a ≤ b) (t0 :: rest)) :
    (run cfg 1).trace = [Ev.fetchStart t0 0]
    ∧ (run cfg n).started ≤ 1
    ∧ (1 ≤ n → (run cfg n).started = 1) := by
  have h1 : run cfg 1
      = { manual := rest, thr1 := some t0, thr2 := some t0, deb := none,
          cur := some (t0 + cfg.fetchDur 0, 0), started := 1,
          trace := [Ev.fetchStart t0 0] } := by
    show step cfg (initState cfg) = _
    simp [step, initState, hc, hm, pre, manualStep, admitThr2, startFetch]
  have hinv : ∀ m, BurstInv t0 (run cfg (m + 1)) := by
    intro m
    induction m with
    | zero =>
        show BurstInv t0 (run cfg 1)
        rw [h1]
        exact ⟨rfl, rfl, rfl, fun t ht => (hrest t ht).2⟩
    | succ m ih => exact burstInv_step cfg hc t0 _ ih
  refine ⟨by rw [h1], ?_, ?_⟩
  · cases n with
    | zero =>
        show (initState cfg).started ≤ 1
        simp [initState]
    | succ m => exact (hinv m).1.le
  · intro hn
    cases n with
    | zero => exact absurd hn (by decide)
    | succ m => exact (hinv m).1

/-- A concrete burst: three manual triggers at 100, 200 and 450ms, timer
path disabled, fetches take 50ms. -/
def burstCfg : StatusConfig :=
  { intervalSec := 0, manual := [100, 200, 450], fetchDur := fun _ => 50,
    fetchOk := fun _ => true }

/-- Witness for C6: the concrete burst issues exactly one fetch, at the
first trigger's time. -/
theorem c6_burst_single_fetch_witness :
    (run burstCfg 1).trace = [Ev.fetchStart 100 0]
    ∧ (run burstCfg 5).started ≤ 1
    ∧ (1 ≤ 5 → (run burstCfg 5).started = 1) :=
  c6_burst_single_fetch burstCfg 100 [200, 450] 5 rfl rfl (by decide)
    (by norm_num [List.chain'_cons])
